import Mathlib

/-!
Verification of the audio-analysis scoring and caching pipeline of the
SpeakifyTech site (route `src/app/api/analyze/[project]/[id]/route.ts` and the
client analysis page).

JavaScript `number` arithmetic is modelled by exact rational arithmetic (`ℚ`);
integer-valued outputs of `Math.round` are modelled as `ℤ`.  `Math.round x`
in JavaScript is `⌊x + 1/2⌋` (half rounds toward +∞), which is `jsRound`
below.  Optional / possibly-`undefined` values are modelled as `Option`.
-/

/-- JavaScript `Math.round`: floor of `q + 1/2` (half rounds up).
Stated with `Rat.floor` (definitionally `⌊q + 1/2⌋`) so that it evaluates. -/
def jsRound (q : ℚ) : ℤ := Rat.floor (q + 1/2)

/-- `jsRound` agrees with the mathematical floor of `q + 1/2`. -/
theorem jsRound_eq_floor (q : ℚ) : jsRound q = ⌊q + 1/2⌋ := by
  rw [jsRound, Rat.floor_def, Rat.floor_def']

/-- Equality of `Except` values is decidable when it is on both sides. -/
instance {ε α : Type} [DecidableEq ε] [DecidableEq α] : DecidableEq (Except ε α) :=
  fun x y =>
    match x, y with
    | .ok a, .ok b =>
        if h : a = b then isTrue (by rw [h])
        else isFalse (fun hh => h (by cases hh; rfl))
    | .error e, .error f =>
        if h : e = f then isTrue (by rw [h])
        else isFalse (fun hh => h (by cases hh; rfl))
    | .ok _, .error _ => isFalse (fun hh => Except.noConfusion hh)
    | .error _, .ok _ => isFalse (fun hh => Except.noConfusion hh)

/-- Gap classification enum, as in `GapAnalysisSchema`'s `z.enum`. -/
inductive GapType where
  | short | medium | long | excessive
deriving DecidableEq, Repr

/-- Speech segment type enum, as in `SpeechSegmentSchema`. -/
inductive SegmentType where
  | introduction | body | conclusion | transition
deriving DecidableEq, Repr

/-- Coherence issue severity enum, as in `CoherenceIssueSchema`. -/
inductive Severity where
  | low | medium | high
deriving DecidableEq, Repr

/-- An entry of `timestampedTranscript`. -/
structure TranscriptEntry where
  startTime : String
  endTime : String
  text : String
deriving DecidableEq, Repr

/-- A detected filler word occurrence (`FillerWordSchema`). -/
structure FillerWord where
  word : String
  timestamp : String
deriving DecidableEq, Repr

/-- A validated gap (`GapAnalysisSchema` after parsing). -/
structure Gap where
  timestamp : String
  duration : ℚ
  type : GapType
deriving DecidableEq, Repr

/-- A validated speech segment (`SpeechSegmentSchema` after parsing). -/
structure SpeechSegment where
  type : SegmentType
  startTime : String
  endTime : String
  content : String
  coherenceScore : ℚ
deriving DecidableEq, Repr

/-- A validated coherence issue (`CoherenceIssueSchema` after parsing). -/
structure CoherenceIssue where
  startTime : String
  endTime : String
  issue : String
  suggestion : String
  severity : Severity
deriving DecidableEq, Repr

/-- A validated analysis result (`AudioAnalysisSchema` after parsing).
Numeric fields are plain `z.number()` in the schema, hence `ℚ` here. -/
structure AnalysisData where
  transcript : String
  timestampedTranscript : Option (List TranscriptEntry)
  durationSeconds : ℚ
  wordCount : ℚ
  wpm : ℚ
  fillerWords : List FillerWord
  totalFillerWords : ℚ
  gaps : List Gap
  averageGapDuration : ℚ
  speechSegments : List SpeechSegment
  coherenceIssues : List CoherenceIssue
  overallCoherenceScore : ℚ
  suggestions : List String
deriving DecidableEq, Repr

/-- The project record consumed by the scoring engine (`AnalysisProject`).
`timeframe` is the target duration in milliseconds. -/
structure AnalysisProject where
  id : String
  name : String
  timeframe : ℚ
deriving DecidableEq, Repr

/-- The four factor scores (`PerformanceFactorScores`). -/
structure PerformanceFactorScores where
  time : ℤ
  coherence : ℤ
  filler : ℤ
  pauses : ℤ
deriving DecidableEq, Repr

/-- The explanatory breakdown (`PerformanceDetails`). -/
structure PerformanceDetails where
  timeGoalSeconds : Option ℚ
  timeDeltaSeconds : Option ℚ
  fillerPercentage : ℚ
  longPauseCount : ℕ
  wordsPerMinute : ℚ
  averageGapDuration : ℚ
deriving DecidableEq, Repr

/-- The persisted performance metrics (`PerformanceMetrics`). -/
structure PerformanceMetrics where
  overallGrade : ℤ
  factorScores : PerformanceFactorScores
  details : PerformanceDetails
deriving DecidableEq, Repr

namespace Server

/-- `getProjectTimeframeSeconds`: `null` unless the project exists with a
strictly positive `timeframe`; otherwise `timeframe / 1000` (stored in ms).
`!project?.timeframe` is falsy exactly on `0` (and absence), which is
subsumed by the `timeframe <= 0` test. -/
def getProjectTimeframeSeconds (project : Option AnalysisProject) : Option ℚ :=
  match project with
  | none => none
  | some p => if p.timeframe ≤ 0 then none else some (p.timeframe / 1000)

/-- Server-side `calculateFactorScores` from the analyze route. -/
def calculateFactorScores (analysis : AnalysisData)
    (project : Option AnalysisProject) : PerformanceFactorScores :=
  let timeframeSeconds := getProjectTimeframeSeconds project
  let timeScore : ℚ :=
    match timeframeSeconds with
    | some t =>
        if 0 < t then
          let timeDiff := |analysis.durationSeconds - t|
          let maxDiff := max (t * (2/10)) 1
          max 0 (100 - (timeDiff / maxDiff) * 100)
        else 100
    | none => 100
  let coherenceScore : ℚ := (analysis.overallCoherenceScore / 10) * 100
  let fillerPercentage : ℚ :=
    if 0 < analysis.wordCount then
      (analysis.totalFillerWords / analysis.wordCount) * 100
    else 0
  let fillerScore : ℚ := max 0 (100 - fillerPercentage * 5)
  let longPauseCount : ℕ :=
    (analysis.gaps.filter fun g => g.type = .long ∨ g.type = .excessive).length
  let pauseScore : ℚ := max 0 (100 - (longPauseCount : ℚ) * 10)
  { time := jsRound timeScore
    coherence := jsRound (max 0 (min 100 coherenceScore))
    filler := jsRound (max 0 (min 100 fillerScore))
    pauses := jsRound (max 0 (min 100 pauseScore)) }

/-- Server-side `calculateOverallGrade`: round of the mean of the four
already-rounded factor scores. -/
def calculateOverallGrade (analysis : AnalysisData)
    (project : Option AnalysisProject) : ℤ :=
  let scores := calculateFactorScores analysis project
  let total := scores.time + scores.coherence + scores.filler + scores.pauses
  jsRound ((total : ℚ) / 4)

/-- Server-side `buildPerformanceMetrics`. -/
def buildPerformanceMetrics (analysis : AnalysisData)
    (project : Option AnalysisProject) : PerformanceMetrics :=
  let fillerPercentage : ℚ :=
    if 0 < analysis.wordCount then
      (analysis.totalFillerWords / analysis.wordCount) * 100
    else 0
  let longPauseCount : ℕ :=
    (analysis.gaps.filter fun g => g.type = .long ∨ g.type = .excessive).length
  let timeGoalSeconds := getProjectTimeframeSeconds project
  let timeDeltaSeconds : Option ℚ :=
    match timeGoalSeconds with
    | some t => some (analysis.durationSeconds - t)
    | none => none
  { overallGrade := calculateOverallGrade analysis project
    factorScores := calculateFactorScores analysis project
    details :=
      { timeGoalSeconds := timeGoalSeconds
        timeDeltaSeconds := timeDeltaSeconds
        fillerPercentage := fillerPercentage
        longPauseCount := longPauseCount
        wordsPerMinute := analysis.wpm
        averageGapDuration := analysis.averageGapDuration } }

end Server

namespace Client

/-- Client-side `calculateFactorScores` from the analysis page.  Note: the
client compares `durationSeconds` against `project.timeframe` directly (the
timeframe is stored in milliseconds), uses no 1-second floor on the
tolerance, does not clamp the coherence score, and does not guard the filler
division.  (JavaScript division by zero yields NaN/Infinity; this model uses
the rational convention `x / 0 = 0` and is only relied on for inputs with
`wordCount > 0`.) -/
def calculateFactorScores (analysis : AnalysisData)
    (project : AnalysisProject) : PerformanceFactorScores :=
  let timeScore : ℚ :=
    if 0 < project.timeframe then
      let timeDiff := |analysis.durationSeconds - project.timeframe|
      let maxDiff := project.timeframe * (2/10)
      max 0 (100 - (timeDiff / maxDiff) * 100)
    else 100
  let coherenceScore : ℚ := (analysis.overallCoherenceScore / 10) * 100
  let fillerPercentage : ℚ := (analysis.totalFillerWords / analysis.wordCount) * 100
  let fillerScore : ℚ := max 0 (100 - fillerPercentage * 5)
  let longPauses : ℕ :=
    (analysis.gaps.filter fun g => g.type = .long ∨ g.type = .excessive).length
  let pauseScore : ℚ := max 0 (100 - (longPauses : ℚ) * 10)
  { time := jsRound timeScore
    coherence := jsRound coherenceScore
    filler := jsRound fillerScore
    pauses := jsRound pauseScore }

/-- Client-side `calculateGrade`: round of the mean of the four *unrounded*
factor scores (unlike the server, which rounds each factor first). -/
def calculateGrade (analysis : AnalysisData) (project : AnalysisProject) : ℤ :=
  let timeScore : ℚ :=
    if 0 < project.timeframe then
      let timeDiff := |analysis.durationSeconds - project.timeframe|
      let maxDiff := project.timeframe * (2/10)
      max 0 (100 - (timeDiff / maxDiff) * 100)
    else 100
  let coherenceScore : ℚ := (analysis.overallCoherenceScore / 10) * 100
  let fillerPercentage : ℚ := (analysis.totalFillerWords / analysis.wordCount) * 100
  let fillerScore : ℚ := max 0 (100 - fillerPercentage * 5)
  let longPauses : ℕ :=
    (analysis.gaps.filter fun g => g.type = .long ∨ g.type = .excessive).length
  let pauseScore : ℚ := max 0 (100 - (longPauses : ℚ) * 10)
  jsRound ((timeScore + coherenceScore + fillerScore + pauseScore) / 4)

end Client

/-! ## Schema validation (`AudioAnalysisSchema.parse`)

Raw oracle output is structurally typed (strings/numbers/arrays as in the
Gemini JSON schema) but enum fields carry arbitrary strings and range fields
arbitrary numbers; `parse` either rejects with the list of failing field
paths (as a Zod error reports them) or produces a validated `AnalysisData`. -/

/-- A raw gap, `type` not yet restricted to the enum. -/
structure RawGap where
  timestamp : String
  duration : ℚ
  type : String
deriving DecidableEq, Repr

/-- A raw speech segment. -/
structure RawSpeechSegment where
  type : String
  startTime : String
  endTime : String
  content : String
  coherenceScore : ℚ
deriving DecidableEq, Repr

/-- A raw coherence issue. -/
structure RawCoherenceIssue where
  startTime : String
  endTime : String
  issue : String
  suggestion : String
  severity : String
deriving DecidableEq, Repr

/-- A raw analysis result, before `AudioAnalysisSchema.parse`. -/
structure RawAnalysis where
  transcript : String
  timestampedTranscript : Option (List TranscriptEntry)
  durationSeconds : ℚ
  wordCount : ℚ
  wpm : ℚ
  fillerWords : List FillerWord
  totalFillerWords : ℚ
  gaps : List RawGap
  averageGapDuration : ℚ
  speechSegments : List RawSpeechSegment
  coherenceIssues : List RawCoherenceIssue
  overallCoherenceScore : ℚ
  suggestions : List String
deriving DecidableEq, Repr

/-- `z.enum(["short", "medium", "long", "excessive"])`. -/
def gapTypeOfString : String → Option GapType
  | "short" => some .short
  | "medium" => some .medium
  | "long" => some .long
  | "excessive" => some .excessive
  | _ => none

/-- `z.enum(["introduction", "body", "conclusion", "transition"])`. -/
def segmentTypeOfString : String → Option SegmentType
  | "introduction" => some .introduction
  | "body" => some .body
  | "conclusion" => some .conclusion
  | "transition" => some .transition
  | _ => none

/-- `z.enum(["low", "medium", "high"])`. -/
def severityOfString : String → Option Severity
  | "low" => some .low
  | "medium" => some .medium
  | "high" => some .high
  | _ => none

/-- The whitespace class `\s` of the JavaScript regexes (ASCII part). -/
def isJsWhitespace (c : Char) : Bool :=
  c = ' ' ∨ c = '\t' ∨ c = '\n' ∨ c = '\r' ∨ c = '\x0b' ∨ c = '\x0c'

/-- `String.prototype.trim` on a character list. -/
def trimChars (cs : List Char) : List Char :=
  ((cs.dropWhile isJsWhitespace).reverse.dropWhile isJsWhitespace).reverse

/-- Number of matches of the regex `[.!?](\s|$)` in a character list:
a sentence-terminal mark followed by whitespace or the end of the string.
(The consumed whitespace can never start another match, so the global-match
count equals this pairwise count.) -/
def countSentenceMarks : List Char → ℕ
  | [] => 0
  | [c] => if c = '.' ∨ c = '!' ∨ c = '?' then 1 else 0
  | c :: d :: rest =>
      (if (c = '.' ∨ c = '!' ∨ c = '?') ∧ isJsWhitespace d then 1 else 0) +
        countSentenceMarks (d :: rest)

/-- The `.refine` on a `timestampedTranscript` entry: the trimmed text is
non-empty and contains exactly one sentence-terminal punctuation mark
followed by whitespace or end-of-string. -/
def validTranscriptEntry (e : TranscriptEntry) : Bool :=
  let t := trimChars e.text.data
  ¬t.isEmpty ∧ countSentenceMarks t = 1

/-- Validate one gap, reporting the Zod issue path on an enum violation. -/
def parseGap (i : ℕ) (g : RawGap) : Except (List String) Gap :=
  match gapTypeOfString g.type with
  | some t => .ok { timestamp := g.timestamp, duration := g.duration, type := t }
  | none => .error [s!"gaps.{i}.type"]

/-- Validate one speech segment: enum membership and `coherenceScore ∈ [0,10]`. -/
def parseSegment (i : ℕ) (s : RawSpeechSegment) : Except (List String) SpeechSegment :=
  let typeErrs := match segmentTypeOfString s.type with
    | some _ => ([] : List String)
    | none => [s!"speechSegments.{i}.type"]
  let scoreErrs :=
    if 0 ≤ s.coherenceScore ∧ s.coherenceScore ≤ 10 then ([] : List String)
    else [s!"speechSegments.{i}.coherenceScore"]
  match segmentTypeOfString s.type with
  | some t =>
      if scoreErrs.isEmpty then
        .ok { type := t, startTime := s.startTime, endTime := s.endTime,
              content := s.content, coherenceScore := s.coherenceScore }
      else .error scoreErrs
  | none => .error (typeErrs ++ scoreErrs)

/-- Validate one coherence issue: severity enum membership. -/
def parseIssue (i : ℕ) (s : RawCoherenceIssue) : Except (List String) CoherenceIssue :=
  match severityOfString s.severity with
  | some sev => .ok { startTime := s.startTime, endTime := s.endTime,
                      issue := s.issue, suggestion := s.suggestion, severity := sev }
  | none => .error [s!"coherenceIssues.{i}.severity"]

/-- Run an indexed element validator over a list, accumulating every issue
(as `ZodError` does) and returning the validated list only if none failed. -/
def collectErrs {α β : Type} (f : ℕ → α → Except (List String) β) (xs : List α) :
    Except (List String) (List β) :=
  let rs := xs.enum.map fun p => f p.1 p.2
  let errs := rs.foldr (fun r acc =>
    (match r with | .error e => e | .ok _ => []) ++ acc) []
  if errs.isEmpty then
    .ok (rs.filterMap fun r => match r with | .ok b => some b | .error _ => none)
  else .error errs

/-- Issue paths of the `timestampedTranscript` refinements. -/
def transcriptEntryErrs (tt : Option (List TranscriptEntry)) : List String :=
  match tt with
  | none => []
  | some ts =>
      (ts.enum.filterMap fun p =>
        if validTranscriptEntry p.2 then none else some s!"timestampedTranscript.{p.1}")

/-- `AudioAnalysisSchema.parse`: validate a raw oracle response, collecting
the failing field paths of every violated check, in schema field order. -/
def audioAnalysisParse (raw : RawAnalysis) : Except (List String) AnalysisData :=
  let ttErrs := transcriptEntryErrs raw.timestampedTranscript
  let gapRes := collectErrs parseGap raw.gaps
  let segRes := collectErrs parseSegment raw.speechSegments
  let issRes := collectErrs parseIssue raw.coherenceIssues
  let scoreErrs :=
    if 0 ≤ raw.overallCoherenceScore ∧ raw.overallCoherenceScore ≤ 10 then ([] : List String)
    else ["overallCoherenceScore"]
  match gapRes, segRes, issRes with
  | .ok gs, .ok ss, .ok is =>
      if ttErrs.isEmpty ∧ scoreErrs.isEmpty then
        .ok { transcript := raw.transcript
              timestampedTranscript := raw.timestampedTranscript
              durationSeconds := raw.durationSeconds
              wordCount := raw.wordCount
              wpm := raw.wpm
              fillerWords := raw.fillerWords
              totalFillerWords := raw.totalFillerWords
              gaps := gs
              averageGapDuration := raw.averageGapDuration
              speechSegments := ss
              coherenceIssues := is
              overallCoherenceScore := raw.overallCoherenceScore
              suggestions := raw.suggestions }
      else .error (ttErrs ++ scoreErrs)
  | gapRes, segRes, issRes =>
      .error (ttErrs ++
        (match gapRes with | .error e => e | .ok _ => []) ++
        (match segRes with | .error e => e | .ok _ => []) ++
        (match issRes with | .error e => e | .ok _ => []) ++
        scoreErrs)

/-! ## Word/timing normalizer (server-side authoritative `wordCount`/`wpm`) -/

/-- The word-character class `\w` of the token-stripping regex, or an
apostrophe: characters NOT stripped from token ends. -/
def isWordAposChar (c : Char) : Bool :=
  c.isAlpha ∨ c.isDigit ∨ c = '_' ∨ c = '\x27'

/-- `w.replace(/^[^\w']+|[^\w']+$/g, "")`: strip leading and trailing
non-word, non-apostrophe characters from a token. -/
def stripToken (cs : List Char) : List Char :=
  ((cs.dropWhile fun c => ¬isWordAposChar c).reverse.dropWhile
    fun c => ¬isWordAposChar c).reverse

/-- Split a character list at whitespace characters.  JavaScript's
`split(/\s+/)` collapses runs; splitting at every whitespace character
instead only adds empty tokens, which the `filter(Boolean)` drops, so the
resulting word count is identical. -/
def splitWs : List Char → List Char → List (List Char)
  | [], acc => [acc.reverse]
  | c :: cs, acc =>
      if isJsWhitespace c then acc.reverse :: splitWs cs []
      else splitWs cs (c :: acc)

/-- `countWords` from the analyze route: trim, split on whitespace, strip
token ends, drop empty tokens, count. -/
def countWords (text : String) : ℕ :=
  if text.isEmpty then 0
  else
    (((splitWs (trimChars text.data) []).map stripToken).filter
      fun t => ¬t.isEmpty).length

/-- The canonical transcript text: the space-joined `timestampedTranscript`
texts when present and non-empty, else the `transcript`. -/
def reconstructTranscript (d : AnalysisData) : String :=
  match d.timestampedTranscript with
  | some ts => if 0 < ts.length then String.intercalate " " (ts.map (·.text))
               else d.transcript
  | none => d.transcript

/-- Server-side `serverWpm`: `Math.round(wordCount / (durationSec / 60))`
when the duration is positive, else `0`. -/
def serverWpm (wordCount : ℕ) (durationSec : ℚ) : ℤ :=
  if 0 < durationSec then jsRound ((wordCount : ℚ) / (durationSec / 60)) else 0

/-- The normalization step: overwrite the oracle's self-reported `wordCount`
and `wpm` with the server-computed authoritative values. -/
def normalizeAnalysis (d : AnalysisData) : AnalysisData :=
  let serverWordCount := countWords (reconstructTranscript d)
  { d with wordCount := (serverWordCount : ℚ)
           wpm := (serverWpm serverWordCount d.durationSeconds : ℚ) }

/-! ## Analysis store and orchestrator -/

/-- The persisted `AudioAnalysis` record (the client-facing field
`coherenceIssues` is stored under the column `sentenceIssues`). -/
structure AnalysisRecord where
  transcript : String
  durationSeconds : ℚ
  wordCount : ℚ
  wpm : ℚ
  fillerWords : List FillerWord
  totalFillerWords : ℚ
  gaps : List Gap
  averageGapDuration : ℚ
  speechSegments : List SpeechSegment
  sentenceIssues : List CoherenceIssue
  timestampedTranscript : Option (List TranscriptEntry)
  overallCoherenceScore : ℚ
  suggestions : List String
  performance : Option PerformanceMetrics
deriving DecidableEq, Repr

/-- `cachedAnalysis` in the route: the analysis view of a stored record. -/
def cachedView (r : AnalysisRecord) : AnalysisData :=
  { transcript := r.transcript
    timestampedTranscript := r.timestampedTranscript
    durationSeconds := r.durationSeconds
    wordCount := r.wordCount
    wpm := r.wpm
    fillerWords := r.fillerWords
    totalFillerWords := r.totalFillerWords
    gaps := r.gaps
    averageGapDuration := r.averageGapDuration
    speechSegments := r.speechSegments
    coherenceIssues := r.sentenceIssues
    overallCoherenceScore := r.overallCoherenceScore
    suggestions := r.suggestions }

/-- `createData` + `prisma.audioAnalysis.create`: the record created on the
cache-miss path.  The `timestampedTranscript` key is spread in only when the
analysis has one; an absent key leaves the column null. -/
def createRecord (d : AnalysisData) (perf : PerformanceMetrics) : AnalysisRecord :=
  { transcript := d.transcript
    durationSeconds := d.durationSeconds
    wordCount := d.wordCount
    wpm := d.wpm
    fillerWords := d.fillerWords
    totalFillerWords := d.totalFillerWords
    gaps := d.gaps
    averageGapDuration := d.averageGapDuration
    speechSegments := d.speechSegments
    sentenceIssues := d.coherenceIssues
    timestampedTranscript := d.timestampedTranscript
    overallCoherenceScore := d.overallCoherenceScore
    suggestions := d.suggestions
    performance := some perf }

/-- `updateData` + `prisma.audioAnalysis.update` on the retry path: every
field is overwritten with the new analysis, except that the
`timestampedTranscript` key is spread in only when the new analysis has one
— when it is absent, the update does not mention the column and the stored
value persists. -/
def applyRetryUpdate (r : AnalysisRecord) (d : AnalysisData)
    (perf : PerformanceMetrics) : AnalysisRecord :=
  { transcript := d.transcript
    durationSeconds := d.durationSeconds
    wordCount := d.wordCount
    wpm := d.wpm
    fillerWords := d.fillerWords
    totalFillerWords := d.totalFillerWords
    gaps := d.gaps
    averageGapDuration := d.averageGapDuration
    speechSegments := d.speechSegments
    sentenceIssues := d.coherenceIssues
    timestampedTranscript :=
      match d.timestampedTranscript with
      | some tt => some tt
      | none => r.timestampedTranscript
    overallCoherenceScore := d.overallCoherenceScore
    suggestions := d.suggestions
    performance := some perf }

/-- Outcome of the single external oracle (Gemini) invocation. -/
inductive OracleOutcome where
  | failed (msg : String)
  | noText
  | ok (raw : RawAnalysis)
deriving DecidableEq, Repr

/-- The response of the analyze route (after auth, project and upload have
been resolved): success with the analysis and performance metrics (and the
`cached` flag), or one of the distinct error responses. -/
inductive AnalyzeResponse where
  | success (analysis : AnalysisData) (performance : PerformanceMetrics) (cached : Bool)
  | noResponseFromAI
  | schemaViolation (fields : List String)
  | internalError (msg : String)
deriving DecidableEq, Repr

/-- Whether a response is one of the error responses. -/
def AnalyzeResponse.isError : AnalyzeResponse → Bool
  | .success _ _ _ => false
  | _ => true

/-- Result of one analyze request: the response, the stored record for this
upload after the request, and whether the oracle was invoked. -/
structure GetResult where
  response : AnalyzeResponse
  stored : Option AnalysisRecord
  oracleCalled : Bool
deriving DecidableEq, Repr

/-- The analyze route's `GET` pipeline for one upload, after authentication
and the project/upload lookups have succeeded: `stored` is the upload's
current analysis record (absent if never analyzed), `isRetry` the `retry`
query flag, `oracle` the outcome the external oracle would produce if
invoked.  Mirrors the route: cache hit (with lazy performance backfill) when
a record exists and no retry is forced; otherwise invoke the oracle,
validate, normalize, score, and persist (update on retry, create otherwise);
any failure before persisting leaves the store untouched. -/
def handleGet (stored : Option AnalysisRecord) (isRetry : Bool)
    (project : AnalysisProject) (oracle : OracleOutcome) : GetResult :=
  match stored, isRetry with
  | some r, false =>
      let cached := cachedView r
      match r.performance with
      | some p =>
          { response := .success cached p true, stored := some r, oracleCalled := false }
      | none =>
          let perf := Server.buildPerformanceMetrics cached (some project)
          { response := .success cached perf true
            stored := some { r with performance := some perf }
            oracleCalled := false }
  | _, _ =>
      match oracle with
      | .failed msg =>
          { response := .internalError msg, stored := stored, oracleCalled := true }
      | .noText =>
          { response := .noResponseFromAI, stored := stored, oracleCalled := true }
      | .ok raw =>
          match audioAnalysisParse raw with
          | .error fields =>
              { response := .schemaViolation fields, stored := stored, oracleCalled := true }
          | .ok d =>
              let d' := normalizeAnalysis d
              let perf := Server.buildPerformanceMetrics d' (some project)
              let stored' :=
                match stored, isRetry with
                | some r, true => some (applyRetryUpdate r d' perf)
                | _, _ => some (createRecord d' perf)
              { response := .success d' perf false, stored := stored', oracleCalled := true }

/-! ## Equation lemmas for `handleGet` -/

/-- Cache miss, oracle output validates: the normalized analysis is scored,
persisted as a fresh record, and returned uncached. -/
theorem handleGet_none_ok (b : Bool) (p : AnalysisProject) (raw : RawAnalysis)
    (d : AnalysisData) (h : audioAnalysisParse raw = .ok d) :
    handleGet none b p (.ok raw) =
      { response := .success (normalizeAnalysis d)
          (Server.buildPerformanceMetrics (normalizeAnalysis d) (some p)) false
        stored := some (createRecord (normalizeAnalysis d)
          (Server.buildPerformanceMetrics (normalizeAnalysis d) (some p)))
        oracleCalled := true } := by
  simp only [handleGet, h]

/-- Forced retry over an existing record, oracle output validates: the
stored record is overwritten via `applyRetryUpdate`. -/
theorem handleGet_retry_ok (r : AnalysisRecord) (p : AnalysisProject) (raw : RawAnalysis)
    (d : AnalysisData) (h : audioAnalysisParse raw = .ok d) :
    handleGet (some r) true p (.ok raw) =
      { response := .success (normalizeAnalysis d)
          (Server.buildPerformanceMetrics (normalizeAnalysis d) (some p)) false
        stored := some (applyRetryUpdate r (normalizeAnalysis d)
          (Server.buildPerformanceMetrics (normalizeAnalysis d) (some p)))
        oracleCalled := true } := by
  simp only [handleGet, h]

/-- Cache hit with stored performance: the record is returned as-is, the
oracle is not called, the store is untouched. -/
theorem handleGet_hit_perf (r : AnalysisRecord) (p : AnalysisProject) (o : OracleOutcome)
    (m : PerformanceMetrics) (h : r.performance = some m) :
    handleGet (some r) false p o =
      { response := .success (cachedView r) m true
        stored := some r
        oracleCalled := false } := by
  simp only [handleGet, h]

/-- Cache hit without stored performance: the performance metrics are
computed from the cached record and lazily backfilled. -/
theorem handleGet_hit_backfill (r : AnalysisRecord) (p : AnalysisProject) (o : OracleOutcome)
    (h : r.performance = none) :
    handleGet (some r) false p o =
      { response := .success (cachedView r)
          (Server.buildPerformanceMetrics (cachedView r) (some p)) true
        stored :=
          some { r with
                 performance := some (Server.buildPerformanceMetrics (cachedView r) (some p)) }
        oracleCalled := false } := by
  simp only [handleGet, h]

/-- Oracle output fails schema validation on the oracle path: the error
carries the failing fields and the store is untouched. -/
theorem handleGet_parse_error (stored : Option AnalysisRecord) (b : Bool)
    (p : AnalysisProject) (raw : RawAnalysis) (fields : List String)
    (hmiss : stored = none ∨ b = true)
    (h : audioAnalysisParse raw = .error fields) :
    handleGet stored b p (.ok raw) =
      { response := .schemaViolation fields, stored := stored, oracleCalled := true } := by
  rcases hmiss with hs | hb
  · subst hs; simp only [handleGet, h]
  · subst hb
    cases stored with
    | none => simp only [handleGet, h]
    | some r => simp only [handleGet, h]

/-- The oracle call throws on the oracle path: internal error, store untouched. -/
theorem handleGet_failed (stored : Option AnalysisRecord) (b : Bool)
    (p : AnalysisProject) (msg : String) (hmiss : stored = none ∨ b = true) :
    handleGet stored b p (.failed msg) =
      { response := .internalError msg, stored := stored, oracleCalled := true } := by
  rcases hmiss with hs | hb
  · subst hs; simp only [handleGet]
  · subst hb
    cases stored with
    | none => rfl
    | some r => rfl

/-- The oracle returns no text on the oracle path: error, store untouched. -/
theorem handleGet_noText (stored : Option AnalysisRecord) (b : Bool)
    (p : AnalysisProject) (hmiss : stored = none ∨ b = true) :
    handleGet stored b p .noText =
      { response := .noResponseFromAI, stored := stored, oracleCalled := true } := by
  rcases hmiss with hs | hb
  · subst hs; rfl
  · subst hb
    cases stored with
    | none => rfl
    | some r => rfl

/-! ## Concrete fixtures -/

/-- A project with a 60-second target (`timeframe` in milliseconds). -/
def demoProject : AnalysisProject :=
  { id := "p1", name := "Demo", timeframe := 60000 }

/-- Gaps of the concrete scenario: exactly two of type long/excessive. -/
def scenarioGaps : List Gap :=
  [{ timestamp := "00:10", duration := 5, type := .long },
   { timestamp := "00:30", duration := 8, type := .excessive },
   { timestamp := "00:44", duration := 2, type := .medium }]

/-- The concrete scenario analysis of the spec: 65 s, 130 words, 13 filler
words, coherence 8, two long/excessive gaps. -/
def scenarioAnalysis : AnalysisData :=
  { transcript := "demo"
    timestampedTranscript := none
    durationSeconds := 65
    wordCount := 130
    wpm := 120
    fillerWords := []
    totalFillerWords := 13
    gaps := scenarioGaps
    averageGapDuration := 5
    speechSegments := []
    coherenceIssues := []
    overallCoherenceScore := 8
    suggestions := [] }

/-! ## Fixtures for the concrete claims -/

/-- Transcript entry stored by a previous analysis of the upload. -/
def oldEntry : TranscriptEntry :=
  { startTime := "00:00", endTime := "00:04", text := "Hello there." }

/-- A previously stored analysis record (with a timestamped transcript and
no cached performance metrics). -/
def oldRecord : AnalysisRecord :=
  { transcript := "Hello there."
    durationSeconds := 10
    wordCount := 2
    wpm := 12
    fillerWords := []
    totalFillerWords := 0
    gaps := []
    averageGapDuration := 0
    speechSegments := []
    sentenceIssues := []
    timestampedTranscript := some [oldEntry]
    overallCoherenceScore := 5
    suggestions := []
    performance := none }

/-- A fresh oracle response for a forced retry, with no
`timestampedTranscript`. -/
def retryRaw : RawAnalysis :=
  { transcript := "Good morning everyone today."
    timestampedTranscript := none
    durationSeconds := 12
    wordCount := 4
    wpm := 20
    fillerWords := []
    totalFillerWords := 0
    gaps := []
    averageGapDuration := 0
    speechSegments := []
    coherenceIssues := []
    overallCoherenceScore := 7
    suggestions := [] }

/-- `retryRaw` after schema validation. -/
def retryParsed : AnalysisData :=
  { transcript := "Good morning everyone today."
    timestampedTranscript := none
    durationSeconds := 12
    wordCount := 4
    wpm := 20
    fillerWords := []
    totalFillerWords := 0
    gaps := []
    averageGapDuration := 0
    speechSegments := []
    coherenceIssues := []
    overallCoherenceScore := 7
    suggestions := [] }

/-- A fully-featured valid oracle response for the caching scenario. -/
def c4raw : RawAnalysis :=
  { transcript := "We begin now. We end here."
    timestampedTranscript := some
      [{ startTime := "00:00", endTime := "00:03", text := "We begin now." },
       { startTime := "00:03", endTime := "00:06", text := "We end here." }]
    durationSeconds := 6
    wordCount := 6
    wpm := 60
    fillerWords := [{ word := "um", timestamp := "00:01" }]
    totalFillerWords := 1
    gaps := [{ timestamp := "00:02", duration := 3, type := "medium" }]
    averageGapDuration := 3
    speechSegments := [{ type := "introduction", startTime := "00:00",
                         endTime := "00:06", content := "intro", coherenceScore := 9 }]
    coherenceIssues := [{ startTime := "00:00", endTime := "00:01", issue := "stutter",
                          suggestion := "slow down", severity := "low" }]
    overallCoherenceScore := 9
    suggestions := ["Breathe."] }

/-- `c4raw` after schema validation. -/
def c4parsed : AnalysisData :=
  { transcript := "We begin now. We end here."
    timestampedTranscript := some
      [{ startTime := "00:00", endTime := "00:03", text := "We begin now." },
       { startTime := "00:03", endTime := "00:06", text := "We end here." }]
    durationSeconds := 6
    wordCount := 6
    wpm := 60
    fillerWords := [{ word := "um", timestamp := "00:01" }]
    totalFillerWords := 1
    gaps := [{ timestamp := "00:02", duration := 3, type := .medium }]
    averageGapDuration := 3
    speechSegments := [{ type := .introduction, startTime := "00:00",
                         endTime := "00:06", content := "intro", coherenceScore := 9 }]
    coherenceIssues := [{ startTime := "00:00", endTime := "00:01", issue := "stutter",
                          suggestion := "slow down", severity := .low }]
    overallCoherenceScore := 9
    suggestions := ["Breathe."] }

/-- An oracle response whose `totalFillerWords` (5) disagrees with the
length of its `fillerWords` array (2). -/
def c5raw : RawAnalysis :=
  { transcript := "um uh hello world"
    timestampedTranscript := none
    durationSeconds := 8
    wordCount := 4
    wpm := 30
    fillerWords := [{ word := "um", timestamp := "00:01" },
                    { word := "uh", timestamp := "00:02" }]
    totalFillerWords := 5
    gaps := []
    averageGapDuration := 0
    speechSegments := []
    coherenceIssues := []
    overallCoherenceScore := 6
    suggestions := [] }

/-- `c5raw` after schema validation. -/
def c5parsed : AnalysisData :=
  { transcript := "um uh hello world"
    timestampedTranscript := none
    durationSeconds := 8
    wordCount := 4
    wpm := 30
    fillerWords := [{ word := "um", timestamp := "00:01" },
                    { word := "uh", timestamp := "00:02" }]
    totalFillerWords := 5
    gaps := []
    averageGapDuration := 0
    speechSegments := []
    coherenceIssues := []
    overallCoherenceScore := 6
    suggestions := [] }

/-- An oracle response with a 999-word self-report over a 10-word transcript. -/
def c7raw : RawAnalysis :=
  { transcript := "Well, I think this is a great day today, friends!"
    timestampedTranscript := none
    durationSeconds := 30
    wordCount := 999
    wpm := 1998
    fillerWords := []
    totalFillerWords := 0
    gaps := []
    averageGapDuration := 0
    speechSegments := []
    coherenceIssues := []
    overallCoherenceScore := 7
    suggestions := [] }

/-- `c7raw` after schema validation. -/
def c7parsed : AnalysisData :=
  { transcript := "Well, I think this is a great day today, friends!"
    timestampedTranscript := none
    durationSeconds := 30
    wordCount := 999
    wpm := 1998
    fillerWords := []
    totalFillerWords := 0
    gaps := []
    averageGapDuration := 0
    speechSegments := []
    coherenceIssues := []
    overallCoherenceScore := 7
    suggestions := [] }

/-- A validated analysis whose timestamped transcript takes precedence over
the (different) flat transcript for word counting. -/
def c7ttParsed : AnalysisData :=
  { transcript := "completely different text that is much longer than the segments"
    timestampedTranscript := some
      [{ startTime := "00:00", endTime := "00:02", text := "Hello world." },
       { startTime := "00:02", endTime := "00:04", text := "Nice day!" }]
    durationSeconds := 4
    wordCount := 0
    wpm := 0
    fillerWords := []
    totalFillerWords := 0
    gaps := []
    averageGapDuration := 0
    speechSegments := []
    coherenceIssues := []
    overallCoherenceScore := 5
    suggestions := [] }

/-- An oracle response with a gap type outside the closed enum. -/
def c8raw : RawAnalysis :=
  { transcript := "Short talk."
    timestampedTranscript := none
    durationSeconds := 9
    wordCount := 2
    wpm := 13
    fillerWords := []
    totalFillerWords := 0
    gaps := [{ timestamp := "00:05", duration := 8, type := "huge" }]
    averageGapDuration := 8
    speechSegments := []
    coherenceIssues := []
    overallCoherenceScore := 5
    suggestions := [] }

/-- An analysis with `wordCount = 0` (degenerate filler percentage case). -/
def zeroWordAnalysis : AnalysisData :=
  { transcript := ""
    timestampedTranscript := none
    durationSeconds := 5
    wordCount := 0
    wpm := 0
    fillerWords := []
    totalFillerWords := 0
    gaps := []
    averageGapDuration := 0
    speechSegments := []
    coherenceIssues := []
    overallCoherenceScore := 5
    suggestions := [] }

/-- An analysis whose filler ratio (3/10) is at least 20%. -/
def fillerHeavyAnalysis : AnalysisData :=
  { transcript := "um uh like one two three four five six seven"
    timestampedTranscript := none
    durationSeconds := 20
    wordCount := 10
    wpm := 30
    fillerWords := [{ word := "um", timestamp := "00:01" },
                    { word := "uh", timestamp := "00:03" },
                    { word := "like", timestamp := "00:05" }]
    totalFillerWords := 3
    gaps := []
    averageGapDuration := 0
    speechSegments := []
    coherenceIssues := []
    overallCoherenceScore := 5
    suggestions := [] }

/-! ## Claims -/

/-- C1: For the input analysis with durationSeconds=65, wordCount=130,
totalFillerWords=13, overallCoherenceScore=8, and exactly 2 gaps of type
long or excessive, scored against a project with timeframe=60000, the
scoring functions produce wpm=120, time factor score 58, coherence factor
80, filler factor 50, pause factor 80, and overallGrade 67. -/
theorem c1_concrete_scenario :
    (scenarioGaps.filter fun g => g.type = GapType.long ∨ g.type = GapType.excessive).length
      = 2 ∧
    serverWpm 130 65 = 120 ∧
    Server.calculateFactorScores scenarioAnalysis (some demoProject) =
      { time := 58, coherence := 80, filler := 50, pauses := 80 } ∧
    Server.calculateOverallGrade scenarioAnalysis (some demoProject) = 67 := by
  have hfilter :
      (scenarioGaps.filter fun g => g.type = GapType.long ∨ g.type = GapType.excessive).length
        = 2 := by decide
  refine ⟨hfilter, ?_, ?_, ?_⟩
  · norm_num [serverWpm, jsRound, Rat.floor]
  · simp only [Server.calculateFactorScores, Server.getProjectTimeframeSeconds,
      scenarioAnalysis, demoProject]
    rw [hfilter]
    norm_num [jsRound, Rat.floor]
  · simp only [Server.calculateOverallGrade, Server.calculateFactorScores,
      Server.getProjectTimeframeSeconds, scenarioAnalysis, demoProject]
    rw [hfilter]
    norm_num [jsRound, Rat.floor]

/-- C2: The claim that the server-side and the client-side scoring produce
bit-identical results is violated: on the concrete scenario (65 s against a
60000 ms timeframe) the server time factor is 58 but the client — which
compares seconds against raw milliseconds — computes 0, and the overall
grades are 67 (server) versus 53 (client). -/
theorem c2_server_client_divergence :
    (Server.calculateFactorScores scenarioAnalysis (some demoProject)).time = 58 ∧
    (Client.calculateFactorScores scenarioAnalysis demoProject).time = 0 ∧
    Server.calculateOverallGrade scenarioAnalysis (some demoProject) = 67 ∧
    Client.calculateGrade scenarioAnalysis demoProject = 53 ∧
    Server.calculateFactorScores scenarioAnalysis (some demoProject) ≠
      Client.calculateFactorScores scenarioAnalysis demoProject := by
  have hfilter :
      (scenarioGaps.filter fun g => g.type = GapType.long ∨ g.type = GapType.excessive).length
        = 2 := by decide
  have hserver : (Server.calculateFactorScores scenarioAnalysis (some demoProject)).time = 58 := by
    simp only [Server.calculateFactorScores, Server.getProjectTimeframeSeconds,
      scenarioAnalysis, demoProject]
    norm_num [jsRound, Rat.floor]
  have hclient : (Client.calculateFactorScores scenarioAnalysis demoProject).time = 0 := by
    simp only [Client.calculateFactorScores, scenarioAnalysis, demoProject]
    norm_num [jsRound, Rat.floor]
  refine ⟨hserver, hclient, ?_, ?_, ?_⟩
  · simp only [Server.calculateOverallGrade, Server.calculateFactorScores,
      Server.getProjectTimeframeSeconds, scenarioAnalysis, demoProject]
    rw [hfilter]
    norm_num [jsRound, Rat.floor]
  · simp only [Client.calculateGrade, scenarioAnalysis, demoProject]
    rw [hfilter]
    norm_num [jsRound, Rat.floor]
  · intro heq
    rw [heq, hclient] at hserver
    exact absurd hserver (by norm_num)

/-- C3 counterexample: after a forced retry whose fresh oracle response has
no `timestampedTranscript`, the persisted record still carries the
`timestampedTranscript` of the previous analysis — the update is not a full
replacement in every field. -/
theorem c3_retry_carries_over_timestamped_transcript :
    audioAnalysisParse retryRaw = .ok retryParsed ∧
    retryParsed.timestampedTranscript = none ∧
    oldRecord.timestampedTranscript = some [oldEntry] ∧
    (handleGet (some oldRecord) true demoProject (.ok retryRaw)).stored.map
        (fun r => r.timestampedTranscript) = some (some [oldEntry]) := by
  refine ⟨by decide, rfl, rfl, ?_⟩
  rw [handleGet_retry_ok oldRecord demoProject retryRaw retryParsed (by decide)]
  rfl

/-- C3 (amended): on a forced retry with a schema-valid oracle response, the
stored record is replaced field-by-field with the new normalized analysis
and its performance metrics, except `timestampedTranscript`, which keeps the
previously stored value when the new analysis lacks one. -/
theorem c3_retry_full_replacement_except_timestamped :
    ∀ (r : AnalysisRecord) (p : AnalysisProject) (raw : RawAnalysis) (d : AnalysisData),
      audioAnalysisParse raw = .ok d →
      (handleGet (some r) true p (.ok raw)).stored =
        some { transcript := (normalizeAnalysis d).transcript
               durationSeconds := (normalizeAnalysis d).durationSeconds
               wordCount := (normalizeAnalysis d).wordCount
               wpm := (normalizeAnalysis d).wpm
               fillerWords := (normalizeAnalysis d).fillerWords
               totalFillerWords := (normalizeAnalysis d).totalFillerWords
               gaps := (normalizeAnalysis d).gaps
               averageGapDuration := (normalizeAnalysis d).averageGapDuration
               speechSegments := (normalizeAnalysis d).speechSegments
               sentenceIssues := (normalizeAnalysis d).coherenceIssues
               timestampedTranscript :=
                 match (normalizeAnalysis d).timestampedTranscript with
                 | some tt => some tt
                 | none => r.timestampedTranscript
               overallCoherenceScore := (normalizeAnalysis d).overallCoherenceScore
               suggestions := (normalizeAnalysis d).suggestions
               performance :=
                 some (Server.buildPerformanceMetrics (normalizeAnalysis d) (some p)) } := by
  intro r p raw d h
  rw [handleGet_retry_ok r p raw d h]
  rfl

/-- C3 witness: the amended retry-replacement theorem applied to the
concrete previous record and retry response. -/
theorem c3_retry_full_replacement_except_timestamped_witness :
    audioAnalysisParse retryRaw = .ok retryParsed ∧
    (handleGet (some oldRecord) true demoProject (.ok retryRaw)).stored =
      some { transcript := (normalizeAnalysis retryParsed).transcript
             durationSeconds := (normalizeAnalysis retryParsed).durationSeconds
             wordCount := (normalizeAnalysis retryParsed).wordCount
             wpm := (normalizeAnalysis retryParsed).wpm
             fillerWords := (normalizeAnalysis retryParsed).fillerWords
             totalFillerWords := (normalizeAnalysis retryParsed).totalFillerWords
             gaps := (normalizeAnalysis retryParsed).gaps
             averageGapDuration := (normalizeAnalysis retryParsed).averageGapDuration
             speechSegments := (normalizeAnalysis retryParsed).speechSegments
             sentenceIssues := (normalizeAnalysis retryParsed).coherenceIssues
             timestampedTranscript :=
               match (normalizeAnalysis retryParsed).timestampedTranscript with
               | some tt => some tt
               | none => oldRecord.timestampedTranscript
             overallCoherenceScore := (normalizeAnalysis retryParsed).overallCoherenceScore
             suggestions := (normalizeAnalysis retryParsed).suggestions
             performance :=
               some (Server.buildPerformanceMetrics (normalizeAnalysis retryParsed)
                 (some demoProject)) } :=
  ⟨by decide,
   c3_retry_full_replacement_except_timestamped oldRecord demoProject retryRaw retryParsed
     (by decide)⟩

/-- C4: calling the analysis operation a second time for the same upload
without the retry flag returns the identical analysis and performance
metrics (now flagged cached), performs no oracle invocation, and leaves the
store unchanged. -/
theorem c4_idempotent_caching :
    ∀ (raw : RawAnalysis) (p : AnalysisProject) (d : AnalysisData) (o : OracleOutcome),
      audioAnalysisParse raw = .ok d →
      (handleGet none false p (.ok raw)).oracleCalled = true ∧
      (handleGet (handleGet none false p (.ok raw)).stored false p o).oracleCalled = false ∧
      (handleGet none false p (.ok raw)).response =
        .success (normalizeAnalysis d)
          (Server.buildPerformanceMetrics (normalizeAnalysis d) (some p)) false ∧
      (handleGet (handleGet none false p (.ok raw)).stored false p o).response =
        .success (normalizeAnalysis d)
          (Server.buildPerformanceMetrics (normalizeAnalysis d) (some p)) true ∧
      (handleGet (handleGet none false p (.ok raw)).stored false p o).stored =
        (handleGet none false p (.ok raw)).stored := by
  intro raw p d o h
  rw [handleGet_none_ok false p raw d h]
  rw [handleGet_hit_perf
    (createRecord (normalizeAnalysis d)
      (Server.buildPerformanceMetrics (normalizeAnalysis d) (some p)))
    p o (Server.buildPerformanceMetrics (normalizeAnalysis d) (some p)) rfl]
  exact ⟨rfl, rfl, rfl, rfl, rfl⟩

/-- C4 witness: the caching theorem applied to a concrete valid oracle
response, with the second request's oracle outcome arbitrary (`noText`). -/
theorem c4_idempotent_caching_witness :
    audioAnalysisParse c4raw = .ok c4parsed ∧
    ((handleGet none false demoProject (.ok c4raw)).oracleCalled = true ∧
     (handleGet (handleGet none false demoProject (.ok c4raw)).stored false demoProject
        .noText).oracleCalled = false ∧
     (handleGet none false demoProject (.ok c4raw)).response =
       .success (normalizeAnalysis c4parsed)
         (Server.buildPerformanceMetrics (normalizeAnalysis c4parsed) (some demoProject)) false ∧
     (handleGet (handleGet none false demoProject (.ok c4raw)).stored false demoProject
        .noText).response =
       .success (normalizeAnalysis c4parsed)
         (Server.buildPerformanceMetrics (normalizeAnalysis c4parsed) (some demoProject)) true ∧
     (handleGet (handleGet none false demoProject (.ok c4raw)).stored false demoProject
        .noText).stored =
       (handleGet none false demoProject (.ok c4raw)).stored) :=
  ⟨by decide, c4_idempotent_caching c4raw demoProject c4parsed .noText (by decide)⟩

/-- C5 counterexample: the schema validation gate accepts an analysis whose
`totalFillerWords` (5) differs from the length of its `fillerWords` array
(2) — the claimed invariant is not enforced by the gate. -/
theorem c5_gate_accepts_mismatched_filler_total :
    audioAnalysisParse c5raw = .ok c5parsed ∧
    c5parsed.totalFillerWords = 5 ∧
    c5parsed.fillerWords.length = 2 ∧
    c5parsed.totalFillerWords ≠ (c5parsed.fillerWords.length : ℚ) := by
  refine ⟨by decide, rfl, rfl, ?_⟩
  norm_num [c5parsed]

/-- C5 (amended): the schema validation gate does not enforce that
`totalFillerWords` equals the length of `fillerWords`; it accepts analysis
results in which the two differ. -/
theorem c5_total_filler_invariant_not_enforced :
    ∃ (raw : RawAnalysis) (d : AnalysisData),
      audioAnalysisParse raw = .ok d ∧
      d.totalFillerWords ≠ (d.fillerWords.length : ℚ) :=
  ⟨c5raw, c5parsed, by decide, by norm_num [c5parsed]⟩

/-- C6: the filler factor never divides by zero — with `wordCount = 0` the
filler percentage is 0 and the filler factor score is 100, and with
`wordCount > 0` and a filler ratio of at least 1/5 the filler factor score
is exactly 0. -/
theorem c6_filler_score_safety :
    ∀ (a : AnalysisData) (p : Option AnalysisProject),
      (a.wordCount = 0 →
        (Server.buildPerformanceMetrics a p).details.fillerPercentage = 0 ∧
        (Server.calculateFactorScores a p).filler = 100) ∧
      (0 < a.wordCount → (1/5 : ℚ) ≤ a.totalFillerWords / a.wordCount →
        (Server.calculateFactorScores a p).filler = 0) := by
  intro a p
  constructor
  · intro h
    constructor
    · simp [Server.buildPerformanceMetrics, h]
    · simp only [Server.calculateFactorScores, h]
      norm_num [jsRound, Rat.floor]
  · intro h0 h5
    simp only [Server.calculateFactorScores]
    rw [if_pos h0]
    have hle : (100 : ℚ) - a.totalFillerWords / a.wordCount * 100 * 5 ≤ 0 := by linarith
    rw [max_eq_left hle]
    norm_num [jsRound, Rat.floor]

/-- C6 witness: the safety theorem applied to a zero-word analysis and to an
analysis with a 30% filler ratio. -/
theorem c6_filler_score_safety_witness :
    ((Server.buildPerformanceMetrics zeroWordAnalysis none).details.fillerPercentage = 0 ∧
     (Server.calculateFactorScores zeroWordAnalysis none).filler = 100) ∧
    (Server.calculateFactorScores fillerHeavyAnalysis none).filler = 0 :=
  ⟨(c6_filler_score_safety zeroWordAnalysis none).1 rfl,
   (c6_filler_score_safety fillerHeavyAnalysis none).2 (by norm_num [fillerHeavyAnalysis])
     (by norm_num [fillerHeavyAnalysis])⟩

/-- C7: the stored wordCount is recomputed from the canonical transcript
text (space-joined timestamped texts when present and non-empty, else the
flat transcript; whitespace tokens with end-punctuation stripped), and wpm
is derived from it — concretely, an oracle claiming wordCount 999 over a
10-word transcript is stored with wordCount 10 and wpm 20 at 30 seconds,
and a timestamped transcript takes precedence over the flat transcript. -/
theorem c7_word_count_override :
    (∀ d : AnalysisData,
      (normalizeAnalysis d).wordCount = (countWords (reconstructTranscript d) : ℚ) ∧
      (normalizeAnalysis d).wpm =
        (serverWpm (countWords (reconstructTranscript d)) d.durationSeconds : ℚ)) ∧
    audioAnalysisParse c7raw = .ok c7parsed ∧
    c7parsed.wordCount = 999 ∧
    countWords (reconstructTranscript c7parsed) = 10 ∧
    (normalizeAnalysis c7parsed).wordCount = 10 ∧
    (normalizeAnalysis c7parsed).wpm = 20 ∧
    reconstructTranscript c7ttParsed = "Hello world. Nice day!" ∧
    (normalizeAnalysis c7ttParsed).wordCount = 4 := by
  have h10 : countWords (reconstructTranscript c7parsed) = 10 := by decide
  have h4 : countWords (reconstructTranscript c7ttParsed) = 4 := by decide
  refine ⟨fun d => ⟨rfl, rfl⟩, by decide, rfl, h10, ?_, ?_, by decide, ?_⟩
  · simp only [normalizeAnalysis, h10]
    norm_num
  · simp only [normalizeAnalysis, h10]
    norm_num [serverWpm, jsRound, Rat.floor, c7parsed]
  · simp only [normalizeAnalysis, h4]
    norm_num

/-- C8: an oracle response with a gap type "huge" (outside the closed enum)
is rejected by the schema gate with the list of failing field paths; the
route surfaces it as the schema-violation error — a constructor distinct
from the generic internal error — and stores nothing. -/
theorem c8_schema_rejection_huge_gap :
    audioAnalysisParse c8raw = .error ["gaps.0.type"] ∧
    (handleGet none false demoProject (.ok c8raw)).response =
      .schemaViolation ["gaps.0.type"] ∧
    (handleGet none false demoProject (.ok c8raw)).stored = none ∧
    (∀ (fields : List String) (msg : String),
      AnalyzeResponse.schemaViolation fields ≠ AnalyzeResponse.internalError msg) := by
  refine ⟨by decide, ?_, ?_, fun fields msg h => AnalyzeResponse.noConfusion h⟩
  · rw [handleGet_parse_error none false demoProject c8raw ["gaps.0.type"]
      (Or.inl rfl) (by decide)]
  · rw [handleGet_parse_error none false demoProject c8raw ["gaps.0.type"]
      (Or.inl rfl) (by decide)]

/-- C9: when the oracle path is taken (no cached record, or a forced retry)
and the oracle call fails, returns no text, or returns output that fails
schema validation, the request ends in an error response and the stored
analysis for the upload is exactly what it was before. -/
theorem c9_failure_leaves_store_unchanged :
    ∀ (stored : Option AnalysisRecord) (b : Bool) (p : AnalysisProject),
      stored = none ∨ b = true →
      (∀ msg, (handleGet stored b p (.failed msg)).stored = stored ∧
              ((handleGet stored b p (.failed msg)).response).isError = true) ∧
      ((handleGet stored b p .noText).stored = stored ∧
       ((handleGet stored b p .noText).response).isError = true) ∧
      (∀ (raw : RawAnalysis) (fields : List String),
        audioAnalysisParse raw = .error fields →
        (handleGet stored b p (.ok raw)).stored = stored ∧
        ((handleGet stored b p (.ok raw)).response).isError = true) := by
  intro stored b p hmiss
  refine ⟨fun msg => ?_, ?_, fun raw fields h => ?_⟩
  · rw [handleGet_failed stored b p msg hmiss]
    exact ⟨rfl, rfl⟩
  · rw [handleGet_noText stored b p hmiss]
    exact ⟨rfl, rfl⟩
  · rw [handleGet_parse_error stored b p raw fields hmiss h]
    exact ⟨rfl, rfl⟩

/-- C9 witness: the failure theorem applied to a never-analyzed upload with
a thrown oracle call, an empty oracle response, and the invalid-enum oracle
response. -/
theorem c9_failure_leaves_store_unchanged_witness :
    ((handleGet none false demoProject (.failed "fetch failed")).stored = none ∧
     ((handleGet none false demoProject (.failed "fetch failed")).response).isError = true) ∧
    ((handleGet none false demoProject .noText).stored = none ∧
     ((handleGet none false demoProject .noText).response).isError = true) ∧
    ((handleGet none false demoProject (.ok c8raw)).stored = none ∧
     ((handleGet none false demoProject (.ok c8raw)).response).isError = true) :=
  ⟨(c9_failure_leaves_store_unchanged none false demoProject (Or.inl rfl)).1 "fetch failed",
   (c9_failure_leaves_store_unchanged none false demoProject (Or.inl rfl)).2.1,
   (c9_failure_leaves_store_unchanged none false demoProject (Or.inl rfl)).2.2 c8raw
     ["gaps.0.type"] (by decide)⟩

/-- C10: on a cache hit whose stored record lacks performance metrics, the
lazy backfill stores the computed performance and changes no other stored
field, without calling the oracle. -/
theorem c10_backfill_updates_only_performance :
    ∀ (r : AnalysisRecord) (p : AnalysisProject) (o : OracleOutcome),
      r.performance = none →
      (handleGet (some r) false p o).oracleCalled = false ∧
      ∃ r', (handleGet (some r) false p o).stored = some r' ∧
        r'.performance = some (Server.buildPerformanceMetrics (cachedView r) (some p)) ∧
        r'.transcript = r.transcript ∧
        r'.durationSeconds = r.durationSeconds ∧
        r'.wordCount = r.wordCount ∧
        r'.wpm = r.wpm ∧
        r'.fillerWords = r.fillerWords ∧
        r'.totalFillerWords = r.totalFillerWords ∧
        r'.gaps = r.gaps ∧
        r'.averageGapDuration = r.averageGapDuration ∧
        r'.speechSegments = r.speechSegments ∧
        r'.sentenceIssues = r.sentenceIssues ∧
        r'.timestampedTranscript = r.timestampedTranscript ∧
        r'.overallCoherenceScore = r.overallCoherenceScore ∧
        r'.suggestions = r.suggestions := by
  intro r p o h
  rw [handleGet_hit_backfill r p o h]
  exact ⟨rfl, _, rfl, rfl, rfl, rfl, rfl, rfl, rfl, rfl, rfl, rfl, rfl, rfl, rfl, rfl, rfl⟩

/-- C10 witness: the backfill frame theorem applied to the stored record
without performance metrics. -/
theorem c10_backfill_updates_only_performance_witness :
    (handleGet (some oldRecord) false demoProject .noText).oracleCalled = false ∧
    ∃ r', (handleGet (some oldRecord) false demoProject .noText).stored = some r' ∧
      r'.performance =
        some (Server.buildPerformanceMetrics (cachedView oldRecord) (some demoProject)) ∧
      r'.transcript = oldRecord.transcript ∧
      r'.durationSeconds = oldRecord.durationSeconds ∧
      r'.wordCount = oldRecord.wordCount ∧
      r'.wpm = oldRecord.wpm ∧
      r'.fillerWords = oldRecord.fillerWords ∧
      r'.totalFillerWords = oldRecord.totalFillerWords ∧
      r'.gaps = oldRecord.gaps ∧
      r'.averageGapDuration = oldRecord.averageGapDuration ∧
      r'.speechSegments = oldRecord.speechSegments ∧
      r'.sentenceIssues = oldRecord.sentenceIssues ∧
      r'.timestampedTranscript = oldRecord.timestampedTranscript ∧
      r'.overallCoherenceScore = oldRecord.overallCoherenceScore ∧
      r'.suggestions = oldRecord.suggestions :=
  c10_backfill_updates_only_performance oldRecord demoProject .noText rfl

/-- C8 witness: the rejection theorem applied at the concrete failing field
list and the generic internal error message. -/
theorem c8_schema_rejection_huge_gap_witness :
    AnalyzeResponse.schemaViolation ["gaps.0.type"] ≠
      AnalyzeResponse.internalError "Internal server error" :=
  c8_schema_rejection_huge_gap.2.2.2 ["gaps.0.type"] "Internal server error"
